import Mathlib

/-!
# Verification of `examples/h2o/exec_model.py`

The script is a four-step linear pipeline: `h2o.init()`, then
`h2o.load_model(<hardcoded path>)`, then construction of a one-row
`H2OFrame` from the literal list `my_wine` followed by assignment of the
eleven wine-quality column names, then `model.predict(wine_frame)` whose
result is printed.

The external h2o library is not part of the repository, so its calls are
modelled as an environment `H2OEnv` of oracles: initialization may fail,
`load_model` maps a path to an optional predictor handle, and `predict`
maps a handle and a frame to an optional prediction.  The script itself is
embedded as `runWith` / `runScript`, which records the sequence of external
calls it performs (the trace) together with the final outcome: either the
printed prediction (`Except.ok`) or the step at which an uncaught error
terminated the process (`Except.error`).
-/

namespace ExecModel

/-- The hardcoded model artifact path passed to `h2o.load_model`
(line 4 of `exec_model.py`). -/
def modelPath : String :=
  "mlruns/0/models/m-935ff251a94d41899ecbee172e66c5b8/artifacts/model.h2o/DRF_model_python_1751837466102_2"

/-- The literal input row `my_wine = [7,0.27,0.36,20.7,0.045,45,170,1.001,3,0.45,8.8]`
(line 7).  The decimal literals are exact, so they are embedded as rationals. -/
def my_wine : List ℚ := [7, 0.27, 0.36, 20.7, 0.045, 45, 170, 1.001, 3, 0.45, 8.8]

/-- The column names assigned to `wine_frame.columns` (lines 10-12). -/
def wineColumnNames : List String :=
  ["fixed acidity", "volatile acidity", "citric acid", "residual sugar",
   "chlorides", "free sulfur dioxide", "total sulfur dioxide",
   "density", "pH", "sulphates", "alcohol"]

/-- A labeled tabular frame: rows of numeric values plus column names. -/
structure H2OFrame where
  rows : List (List ℚ)
  columns : List String
deriving DecidableEq, Repr

/-- Modelled from the spec: the `h2o.H2OFrame` constructor wraps a literal
sequence of rows into a table whose column count is the row width; columns
receive default generated names (`C1`, `C2`, ...). -/
def H2OFrame.ofRows (rows : List (List ℚ)) : H2OFrame :=
  { rows := rows
    columns := (List.range (rows.headD []).length).map (fun i => "C" ++ toString (i + 1)) }

/-- Modelled from the spec: the `columns` setter of an `H2OFrame`.  The
script relies on the external library to fail when the number of names
differs from the number of columns; the names are never silently truncated
or padded, so the assignment yields `none` on a length mismatch. -/
def H2OFrame.setColumns (f : H2OFrame) (names : List String) : Option H2OFrame :=
  if names.length = (f.rows.headD []).length then
    some { f with columns := names }
  else
    none

/-- The Input Builder step (lines 8-12) generalised over the value row:
build a one-row frame and assign the eleven wine column names. -/
def buildInput (row : List ℚ) : Option H2OFrame :=
  (H2OFrame.ofRows [row]).setColumns wineColumnNames

/-- The labeled one-row frame the script constructs from `my_wine`. -/
def labeledWineFrame : H2OFrame :=
  { rows := [my_wine], columns := wineColumnNames }

/-- The external calls the script can perform, in the form they appear in
its trace. -/
inductive Call where
  | initCall : Call
  | loadCall : String → Call
  | frameCall : List (List ℚ) → Call
  | setColsCall : List String → Call
  | predictCall : H2OFrame → Call
  | printCall : Call
deriving DecidableEq, Repr

/-- The four pipeline steps at which an uncaught error can terminate the
process. -/
inductive StepName where
  | runtimeInit : StepName
  | modelLoad : StepName
  | inputBuild : StepName
  | prediction : StepName
deriving DecidableEq, Repr

/-- The behaviour of the external h2o runtime, abstracted: whether
`h2o.init()` succeeds, what predictor handle (if any) `h2o.load_model`
returns for a path, and what prediction (if any) a handle produces on a
frame. -/
structure H2OEnv (Model Pred : Type) where
  initOk : Bool
  loadModel : String → Option Model
  predict : Model → H2OFrame → Option Pred

/-- The script's single forward pass, generalised over the input row:
initialize, load the model from the hardcoded path, build the labeled
one-row frame, predict, print.  Returns the trace of external calls made
and either the printed prediction or the step whose uncaught failure
terminated the process. -/
def runWith {Model Pred : Type} (env : H2OEnv Model Pred) (row : List ℚ) :
    List Call × Except StepName Pred :=
  if env.initOk then
    match env.loadModel modelPath with
    | some model =>
      match ((H2OFrame.ofRows [row]).setColumns wineColumnNames) with
      | some frame =>
        match env.predict model frame with
        | some p =>
          ([Call.initCall, Call.loadCall modelPath, Call.frameCall [row],
            Call.setColsCall wineColumnNames, Call.predictCall frame, Call.printCall],
           Except.ok p)
        | none =>
          ([Call.initCall, Call.loadCall modelPath, Call.frameCall [row],
            Call.setColsCall wineColumnNames, Call.predictCall frame],
           Except.error StepName.prediction)
      | none =>
        ([Call.initCall, Call.loadCall modelPath, Call.frameCall [row],
          Call.setColsCall wineColumnNames],
         Except.error StepName.inputBuild)
    | none =>
      ([Call.initCall, Call.loadCall modelPath], Except.error StepName.modelLoad)
  else
    ([Call.initCall], Except.error StepName.runtimeInit)

/-- The script as written: `runWith` applied to its literal row `my_wine`. -/
def runScript {Model Pred : Type} (env : H2OEnv Model Pred) :
    List Call × Except StepName Pred :=
  runWith env my_wine

/-- The script with the process inputs it never reads made explicit: it
imports neither `sys` nor `os`, so command-line arguments and environment
variables do not occur in its body and the run ignores them. -/
def runScriptProc {Model Pred : Type} (env : H2OEnv Model Pred)
    (_argv : List String) (_osEnviron : List (String × String)) :
    List Call × Except StepName Pred :=
  runScript env

/-- Does the trace contain a `predict` call? -/
def hasPredict (tr : List Call) : Bool :=
  tr.any fun c => match c with
    | Call.predictCall _ => true
    | _ => false

/-- Does the trace contain the final `print`? -/
def hasPrint (tr : List Call) : Bool :=
  tr.any fun c => match c with
    | Call.printCall => true
    | _ => false

/-- The frames passed to `predict` calls, in trace order. -/
def predictFrames (tr : List Call) : List H2OFrame :=
  tr.filterMap fun c => match c with
    | Call.predictCall f => some f
    | _ => none

/-- The paths passed to `load_model` calls, in trace order. -/
def loadPaths (tr : List Call) : List String :=
  tr.filterMap fun c => match c with
    | Call.loadCall p => some p
    | _ => none

/-- Did the run end in an uncaught error (non-zero process exit)? -/
def exitedWithError {Pred : Type} (r : Except StepName Pred) : Bool :=
  match r with
  | Except.ok _ => false
  | Except.error _ => true

/-- A concrete demonstration environment used to instantiate the theorems:
initialization succeeds, the hardcoded path loads handle `0`, and the
handle predicts `6` exactly on the labeled wine frame. -/
def demoPredict : Nat → H2OFrame → Option Nat :=
  fun _ f => if f = labeledWineFrame then some 6 else none

/-- Demonstration environment where every step succeeds. -/
def demoEnv : H2OEnv Nat Nat :=
  { initOk := true
    loadModel := fun path => if path = modelPath then some 0 else none
    predict := demoPredict }

/-- Demonstration environment that differs from `demoEnv` only on paths
other than the hardcoded one. -/
def demoEnvAlt : H2OEnv Nat Nat :=
  { initOk := true
    loadModel := fun _ => some 0
    predict := demoPredict }

/-- Demonstration environment whose model load fails. -/
def loadFailEnv : H2OEnv Nat Nat :=
  { initOk := true
    loadModel := fun _ => none
    predict := demoPredict }

end ExecModel

namespace ExecModel

/-- The Input Builder evaluates on the literal row to the labeled frame. -/
theorem buildInput_my_wine : buildInput my_wine = some labeledWineFrame := rfl

/-- C2: after the Input Builder step (frame construction followed by
column-name assignment), the Input Row's column names equal exactly the
eleven wine-feature names in order. -/
theorem column_names_after_build :
    buildInput my_wine = some labeledWineFrame ∧
    labeledWineFrame.columns =
      ["fixed acidity", "volatile acidity", "citric acid", "residual sugar",
       "chlorides", "free sulfur dioxide", "total sulfur dioxide",
       "density", "pH", "sulphates", "alcohol"] :=
  ⟨rfl, rfl⟩

/-- C10: the hand-built value list has exactly 11 elements, the assigned
column-name list has exactly 11 names, and the constructed frame is one row
by 11 columns, with value count equal to name count. -/
theorem literal_length_invariant :
    my_wine.length = 11 ∧ wineColumnNames.length = 11 ∧
    labeledWineFrame.rows = [my_wine] ∧
    labeledWineFrame.rows.length = 1 ∧
    labeledWineFrame.columns.length = 11 ∧
    my_wine.length = wineColumnNames.length :=
  ⟨rfl, rfl, rfl, rfl, rfl, rfl⟩

/-- C1: whenever initialization succeeds, the hardcoded path loads a model
`m`, and `m`'s predict on the labeled one-row frame returns `p`, the script
prints exactly `p`: the printed outcome is the predict result with no
transformation. -/
theorem prediction_printed_as_is {Model Pred : Type} (env : H2OEnv Model Pred)
    (m : Model) (p : Pred)
    (hinit : env.initOk = true)
    (hload : env.loadModel modelPath = some m)
    (hpred : env.predict m labeledWineFrame = some p) :
    (runScript env).2 = Except.ok p := by
  have hbuild : (H2OFrame.ofRows [my_wine]).setColumns wineColumnNames =
      some labeledWineFrame := rfl
  simp [runScript, runWith, hinit, hload, hbuild, hpred]

/-- Closed instance of `prediction_printed_as_is` on the demonstration
environment. -/
theorem prediction_printed_as_is_witness :
    (runScript demoEnv).2 = Except.ok 6 :=
  prediction_printed_as_is demoEnv 0 6 rfl (by simp [demoEnv])
    (by simp [demoEnv, demoPredict])

end ExecModel

namespace ExecModel

/-- C3: on a successful run the trace is exactly initialization, model load,
frame construction, column assignment, prediction, print — each step once,
in that fixed order, with no branches, loops, or retries. -/
theorem single_forward_pass {Model Pred : Type} (env : H2OEnv Model Pred)
    (m : Model) (p : Pred)
    (hinit : env.initOk = true)
    (hload : env.loadModel modelPath = some m)
    (hpred : env.predict m labeledWineFrame = some p) :
    (runScript env).1 =
      [Call.initCall, Call.loadCall modelPath, Call.frameCall [my_wine],
       Call.setColsCall wineColumnNames, Call.predictCall labeledWineFrame,
       Call.printCall] := by
  have hbuild : (H2OFrame.ofRows [my_wine]).setColumns wineColumnNames =
      some labeledWineFrame := rfl
  simp [runScript, runWith, hinit, hload, hbuild, hpred]

/-- Closed instance of `single_forward_pass` on the demonstration
environment. -/
theorem single_forward_pass_witness :
    (runScript demoEnv).1 =
      [Call.initCall, Call.loadCall modelPath, Call.frameCall [my_wine],
       Call.setColsCall wineColumnNames, Call.predictCall labeledWineFrame,
       Call.printCall] :=
  single_forward_pass demoEnv 0 6 rfl (by simp [demoEnv])
    (by simp [demoEnv, demoPredict])

/-- C4: if the model load fails, predict is never invoked, nothing is
printed, and the run terminates in an uncaught error. -/
theorem load_failure_stops_pipeline {Model Pred : Type} (env : H2OEnv Model Pred)
    (hload : env.loadModel modelPath = none) :
    hasPredict (runScript env).1 = false ∧
    hasPrint (runScript env).1 = false ∧
    exitedWithError (runScript env).2 = true := by
  cases hinit : env.initOk <;>
    simp [runScript, runWith, hinit, hload, hasPredict, hasPrint, exitedWithError]

/-- Closed instance of `load_failure_stops_pipeline` on the environment
whose model load fails. -/
theorem load_failure_stops_pipeline_witness :
    hasPredict (runScript loadFailEnv).1 = false ∧
    hasPrint (runScript loadFailEnv).1 = false ∧
    exitedWithError (runScript loadFailEnv).2 = true :=
  load_failure_stops_pipeline loadFailEnv rfl

end ExecModel

namespace ExecModel

/-- C5: for every input row whose length is not 11, the Input Builder fails
(the column assignment yields no frame rather than truncating or padding),
predict is never invoked, nothing is printed, and the run ends in an
uncaught error. -/
theorem wrong_length_row_fails {Model Pred : Type} (env : H2OEnv Model Pred)
    (row : List ℚ) (hlen : row.length ≠ 11) :
    buildInput row = none ∧
    hasPredict (runWith env row).1 = false ∧
    hasPrint (runWith env row).1 = false ∧
    exitedWithError (runWith env row).2 = true := by
  have hbuild : (H2OFrame.ofRows [row]).setColumns wineColumnNames = none := by
    have h11 : wineColumnNames.length = 11 := rfl
    simp [H2OFrame.setColumns, H2OFrame.ofRows, h11]
    exact fun h => hlen h.symm
  refine ⟨hbuild, ?_⟩
  cases hinit : env.initOk
  · simp [runWith, hinit, hasPredict, hasPrint, exitedWithError]
  · cases hload : env.loadModel modelPath with
    | none =>
      simp [runWith, hinit, hload, hasPredict, hasPrint, exitedWithError]
    | some m =>
      simp [runWith, hinit, hload, hbuild, hasPredict, hasPrint, exitedWithError]

/-- Closed instance of `wrong_length_row_fails` on a three-value row. -/
theorem wrong_length_row_fails_witness :
    buildInput [1, 2, 3] = none ∧
    hasPredict (runWith demoEnv [1, 2, 3]).1 = false ∧
    hasPrint (runWith demoEnv [1, 2, 3]).1 = false ∧
    exitedWithError (runWith demoEnv [1, 2, 3]).2 = true :=
  wrong_length_row_fails demoEnv [1, 2, 3] (by simp)

/-- C6: the script has no error handling: the run prints a prediction
exactly when every external call succeeds, and it exits with an uncaught
error exactly when nothing was printed — any failure of initialization,
load, frame construction, or prediction propagates to the top level. -/
theorem uncaught_failures_propagate {Model Pred : Type}
    (env : H2OEnv Model Pred) (p : Pred) :
    ((runScript env).2 = Except.ok p ↔
      env.initOk = true ∧ ∃ m, env.loadModel modelPath = some m ∧
        env.predict m labeledWineFrame = some p) ∧
    exitedWithError (runScript env).2 = !hasPrint (runScript env).1 := by
  have hbuild : (H2OFrame.ofRows [my_wine]).setColumns wineColumnNames =
      some labeledWineFrame := rfl
  cases hinit : env.initOk
  · simp [runScript, runWith, hinit, hasPrint, exitedWithError]
  · cases hload : env.loadModel modelPath with
    | none =>
      simp [runScript, runWith, hinit, hload, hasPrint, exitedWithError]
    | some m =>
      cases hpred : env.predict m labeledWineFrame with
      | none =>
        simp [runScript, runWith, hinit, hload, hbuild, hpred, hasPrint,
          exitedWithError]
      | some q =>
        simp [runScript, runWith, hinit, hload, hbuild, hpred, hasPrint,
          exitedWithError]

end ExecModel

namespace ExecModel

/-- C7: no mutation after construction: the only frame ever handed to
predict is exactly the frame the Input Builder constructed (`my_wine`
labeled with the eleven names), and the printed value is exactly the value
predict returned. -/
theorem no_mutation_after_construction {Model Pred : Type}
    (env : H2OEnv Model Pred) (m : Model) (p : Pred)
    (hinit : env.initOk = true)
    (hload : env.loadModel modelPath = some m)
    (hpred : env.predict m labeledWineFrame = some p) :
    predictFrames (runScript env).1 = [labeledWineFrame] ∧
    labeledWineFrame = { rows := [my_wine], columns := wineColumnNames } ∧
    (runScript env).2 = Except.ok p := by
  have hbuild : (H2OFrame.ofRows [my_wine]).setColumns wineColumnNames =
      some labeledWineFrame := rfl
  refine ⟨?_, rfl, ?_⟩ <;>
    simp [runScript, runWith, hinit, hload, hbuild, hpred, predictFrames]

/-- Closed instance of `no_mutation_after_construction` on the
demonstration environment. -/
theorem no_mutation_after_construction_witness :
    predictFrames (runScript demoEnv).1 = [labeledWineFrame] ∧
    labeledWineFrame = { rows := [my_wine], columns := wineColumnNames } ∧
    (runScript demoEnv).2 = Except.ok 6 :=
  no_mutation_after_construction demoEnv 0 6 rfl (by simp [demoEnv])
    (by simp [demoEnv, demoPredict])

/-- C8: two runs against external behaviours that agree on initialization,
on the model loaded from the hardcoded path, and on prediction produce the
same trace and the same printed result. -/
theorem two_run_determinism {Model Pred : Type} (env1 env2 : H2OEnv Model Pred)
    (hinit : env1.initOk = env2.initOk)
    (hload : env1.loadModel modelPath = env2.loadModel modelPath)
    (hpred : ∀ m f, env1.predict m f = env2.predict m f) :
    runScript env1 = runScript env2 := by
  have hp : env1.predict = env2.predict :=
    funext fun m => funext fun f => hpred m f
  unfold runScript runWith
  rw [hinit, hload, hp]

/-- Closed instance of `two_run_determinism` on two environments that
differ only on paths the script never uses. -/
theorem two_run_determinism_witness :
    runScript demoEnv = runScript demoEnvAlt :=
  two_run_determinism demoEnv demoEnvAlt rfl (by simp [demoEnv, demoEnvAlt])
    (fun m f => rfl)

/-- C9: the run is independent of command-line arguments and environment
variables, and every `load_model` call in the trace uses the one hardcoded
path string. -/
theorem independent_of_process_inputs {Model Pred : Type}
    (env : H2OEnv Model Pred) (argv1 argv2 : List String)
    (osEnv1 osEnv2 : List (String × String)) :
    runScriptProc env argv1 osEnv1 = runScriptProc env argv2 osEnv2 ∧
    (loadPaths (runScriptProc env argv1 osEnv1).1).all
      (fun q => q == modelPath) = true := by
  have hbuild : (H2OFrame.ofRows [my_wine]).setColumns wineColumnNames =
      some labeledWineFrame := rfl
  refine ⟨rfl, ?_⟩
  cases hinit : env.initOk
  · simp [runScriptProc, runScript, runWith, hinit, loadPaths]
  · cases hload : env.loadModel modelPath with
    | none =>
      simp [runScriptProc, runScript, runWith, hinit, hload, loadPaths]
    | some m =>
      cases hpred : env.predict m labeledWineFrame with
      | none =>
        simp [runScriptProc, runScript, runWith, hinit, hload, hbuild, hpred,
          loadPaths]
      | some q =>
        simp [runScriptProc, runScript, runWith, hinit, hload, hbuild, hpred,
          loadPaths]

end ExecModel
